import Mathlib

/-!
Verification development for the CAXKeyboardEvent wrapper.

The repository declares a single C function,
`AXError CAXPostKeyboardEvent(AXUIElementRef application, CGCharCode keyChar,
CGKeyCode virtualKey, Boolean keyDown)`, documented as a wrapper around the
deprecated platform facility `AXUIElementPostKeyboardEvent`.  The platform
facility is external to the repository, so it is modelled here as an oracle
over an abstract platform state; the wrapper is embedded as a function that
additionally returns the list of platform operations it performed, which
makes forwarding fidelity, single-call, and no-retention properties statable.
-/

/-- Opaque accessibility element handle, `AXUIElementRef`.  Handles are
externally owned and only passed through; `none` models the NULL handle. -/
abbrev AXUIElementRef : Type := Option Nat

/-- Character code, `CGCharCode`: a 16-bit unsigned integer (`uint16_t`). -/
abbrev CGCharCode : Type := Fin 65536

/-- Virtual key code, `CGKeyCode`: a 16-bit unsigned integer (`uint16_t`). -/
abbrev CGKeyCode : Type := Fin 65536

/-- Status code from the platform accessibility error domain, `AXError`
(a signed integer enumeration). -/
abbrev AXError : Type := Int

/-- The success status of the accessibility error domain,
`kAXErrorSuccess = 0`. -/
def kAXErrorSuccess : AXError := 0

/-- Observable operations a component could perform on the platform
accessibility subsystem: posting a keyboard event to an element, or
retaining or releasing an element handle.  The wrapper is expected to emit
exactly one `post` and never a `retain` or `release`. -/
inductive PlatformOp where
  | post (application : AXUIElementRef) (keyChar : CGCharCode)
      (virtualKey : CGKeyCode) (keyDown : Bool)
  | retain (application : AXUIElementRef)
  | release (application : AXUIElementRef)
deriving DecidableEq

/-- Whether a platform operation retains a handle. -/
def PlatformOp.isRetain : PlatformOp → Bool
  | .retain _ => true
  | _ => false

/-- Whether a platform operation releases a handle. -/
def PlatformOp.isRelease : PlatformOp → Bool
  | .release _ => true
  | _ => false

/-- The handle a platform operation addresses. -/
def PlatformOp.target : PlatformOp → AXUIElementRef
  | .post a _ _ _ => a
  | .retain a => a
  | .release a => a

/-- The character code carried by a posted event, if the operation is a
post. -/
def PlatformOp.charOf : PlatformOp → Option CGCharCode
  | .post _ ch _ _ => some ch
  | _ => none

/-- The virtual key code carried by a posted event, if the operation is a
post. -/
def PlatformOp.keyOf : PlatformOp → Option CGKeyCode
  | .post _ _ vk _ => some vk
  | _ => none

/-- The key-transition flag carried by a posted event, if the operation is a
post. -/
def PlatformOp.downOf : PlatformOp → Option Bool
  | .post _ _ _ kd => some kd
  | _ => none

/-- The platform accessibility subsystem, taken as an oracle: given its
current state and the four arguments of `AXUIElementPostKeyboardEvent`, it
yields a status code and its next state.  Everything about how the event is
delivered is owned by this oracle. -/
structure Platform (σ : Type) where
  post : σ → AXUIElementRef → CGCharCode → CGKeyCode → Bool → AXError × σ

variable {σ τ : Type}

/-- Modelled from the spec: the implementation body of `CAXPostKeyboardEvent`
is not in the repository (only its declaration and doc comment in
`Sources/CAXKeyboardEvent/include/CAXKeyboardEvent.h` are).  Per the spec it
forwards its four arguments, in order and unmodified, in exactly one call to
the platform facility `AXUIElementPostKeyboardEvent`, and returns the
resulting status code unchanged, performing no validation, no retry, and no
other platform operation.  The result is the returned status, the platform
state after the one call, and the list of platform operations performed. -/
def CAXPostKeyboardEvent (P : Platform σ) (s : σ) (application : AXUIElementRef)
    (keyChar : CGCharCode) (virtualKey : CGKeyCode) (keyDown : Bool) :
    AXError × σ × List PlatformOp :=
  ((P.post s application keyChar virtualKey keyDown).1,
   (P.post s application keyChar virtualKey keyDown).2,
   [PlatformOp.post application keyChar virtualKey keyDown])

/-- Two sequential invocations of the wrapper with the same arguments, the
second starting from the platform state left by the first; the combined
trace is the concatenation of the two traces. -/
def CAXPostKeyboardEventTwice (P : Platform σ) (s : σ)
    (application : AXUIElementRef) (keyChar : CGCharCode)
    (virtualKey : CGKeyCode) (keyDown : Bool) :
    AXError × AXError × σ × List PlatformOp :=
  ((CAXPostKeyboardEvent P s application keyChar virtualKey keyDown).1,
   (CAXPostKeyboardEvent P
      (CAXPostKeyboardEvent P s application keyChar virtualKey keyDown).2.1
      application keyChar virtualKey keyDown).1,
   (CAXPostKeyboardEvent P
      (CAXPostKeyboardEvent P s application keyChar virtualKey keyDown).2.1
      application keyChar virtualKey keyDown).2.1,
   (CAXPostKeyboardEvent P s application keyChar virtualKey keyDown).2.2 ++
     (CAXPostKeyboardEvent P
        (CAXPostKeyboardEvent P s application keyChar virtualKey keyDown).2.1
        application keyChar virtualKey keyDown).2.2)

/-- A concrete platform oracle used to evaluate the development on concrete
inputs: it rejects the NULL handle with the invalid-element status `-25202`,
accepts every other handle with `kAXErrorSuccess`, and counts the posts it
has received as its state. -/
def testPlatform : Platform Nat :=
  ⟨fun s a _ _ _ => (if a = none then (-25202 : AXError) else kAXErrorSuccess, s + 1)⟩

/-- Claim C1: for every input tuple, the status code returned by the wrapper
equals exactly the status code produced by the platform oracle for that call,
an identity mapping with no translation, remapping, or wrapping. -/
theorem CAXPostKeyboardEvent_status_identity (P : Platform σ) (s : σ)
    (a : AXUIElementRef) (ch : CGCharCode) (vk : CGKeyCode) (kd : Bool) :
    (CAXPostKeyboardEvent P s a ch vk kd).1 = (P.post s a ch vk kd).1 := rfl

/-- Claim C2: one invocation of the wrapper results in exactly one platform
call with exactly those argument values in that order, and the platform state
after the invocation is exactly the state produced by that one platform call
(no other observable state change). -/
theorem CAXPostKeyboardEvent_single_exact_call (P : Platform σ) (s : σ)
    (a : AXUIElementRef) (ch : CGCharCode) (vk : CGKeyCode) (kd : Bool) :
    (CAXPostKeyboardEvent P s a ch vk kd).2.2 = [PlatformOp.post a ch vk kd] ∧
    (CAXPostKeyboardEvent P s a ch vk kd).2.1 = (P.post s a ch vk kd).2 :=
  ⟨rfl, rfl⟩

/-- Claim C3: the wrapper returns an error condition if and only if the
platform call produced it; the returned status is exactly the platform's, so
a rejected handle yields exactly the platform's failure status and this layer
never invents an error of its own. -/
theorem CAXPostKeyboardEvent_error_iff_platform (P : Platform σ) (s : σ)
    (a : AXUIElementRef) (ch : CGCharCode) (vk : CGKeyCode) (kd : Bool) :
    ((CAXPostKeyboardEvent P s a ch vk kd).1 ≠ kAXErrorSuccess ↔
      (P.post s a ch vk kd).1 ≠ kAXErrorSuccess) ∧
    (CAXPostKeyboardEvent P s a ch vk kd).1 = (P.post s a ch vk kd).1 :=
  ⟨Iff.rfl, rfl⟩

/-- Claim C4: the wrapper performs no retain and no release on the target
handle, its trace does not depend on the platform state (so no state is
carried across calls), and the resulting platform state is exactly the one
produced by the single post call. -/
theorem CAXPostKeyboardEvent_no_retention (P : Platform σ) (s t : σ)
    (a : AXUIElementRef) (ch : CGCharCode) (vk : CGKeyCode) (kd : Bool) :
    ((CAXPostKeyboardEvent P s a ch vk kd).2.2.all
        (fun op => !op.isRetain && !op.isRelease)) = true ∧
    (CAXPostKeyboardEvent P s a ch vk kd).2.2 =
      (CAXPostKeyboardEvent P t a ch vk kd).2.2 ∧
    (CAXPostKeyboardEvent P s a ch vk kd).2.1 = (P.post s a ch vk kd).2 :=
  ⟨rfl, rfl, rfl⟩

/-- Claim C5: the invocations with the key-transition flag true and false
forward distinct, non-conflated platform calls, and the two forwarded calls
agree on the target, the character code, and the virtual key code, differing
only in the flag. -/
theorem CAXPostKeyboardEvent_flag_distinct (P : Platform σ) (s : σ)
    (a : AXUIElementRef) (ch : CGCharCode) (vk : CGKeyCode) :
    (CAXPostKeyboardEvent P s a ch vk true).2.2 =
      [PlatformOp.post a ch vk true] ∧
    (CAXPostKeyboardEvent P s a ch vk false).2.2 =
      [PlatformOp.post a ch vk false] ∧
    PlatformOp.post a ch vk true ≠ PlatformOp.post a ch vk false ∧
    (PlatformOp.post a ch vk true).target =
      (PlatformOp.post a ch vk false).target ∧
    (PlatformOp.post a ch vk true).charOf =
      (PlatformOp.post a ch vk false).charOf ∧
    (PlatformOp.post a ch vk true).keyOf =
      (PlatformOp.post a ch vk false).keyOf ∧
    (PlatformOp.post a ch vk true).downOf = some true ∧
    (PlatformOp.post a ch vk false).downOf = some false :=
  ⟨rfl, rfl, by simp, rfl, rfl, rfl, rfl, rfl⟩

/-- Claim C6: two sequential invocations with identical arguments produce a
trace of exactly two independent post operations, each carrying the exact
arguments; the two returned statuses are those of the two successive platform
calls, so nothing is cached, de-duplicated, or queued. -/
theorem CAXPostKeyboardEvent_twice_independent (P : Platform σ) (s : σ)
    (a : AXUIElementRef) (ch : CGCharCode) (vk : CGKeyCode) (kd : Bool) :
    (CAXPostKeyboardEventTwice P s a ch vk kd).2.2.2 =
      [PlatformOp.post a ch vk kd, PlatformOp.post a ch vk kd] ∧
    (CAXPostKeyboardEventTwice P s a ch vk kd).2.2.2.length = 2 ∧
    (CAXPostKeyboardEventTwice P s a ch vk kd).1 = (P.post s a ch vk kd).1 ∧
    (CAXPostKeyboardEventTwice P s a ch vk kd).2.1 =
      (P.post (P.post s a ch vk kd).2 a ch vk kd).1 :=
  ⟨rfl, rfl, rfl, rfl⟩

/-- Claim C7: the wrapper is deterministic relative to the platform: in any
two runs with identical arguments in which the platform oracle returns the
same status, the wrapper returns the same status, for its result depends only
on its arguments and the platform's response. -/
theorem CAXPostKeyboardEvent_deterministic (P : Platform σ) (Q : Platform τ)
    (s : σ) (t : τ) (a : AXUIElementRef) (ch : CGCharCode) (vk : CGKeyCode)
    (kd : Bool) (h : (P.post s a ch vk kd).1 = (Q.post t a ch vk kd).1) :
    (CAXPostKeyboardEvent P s a ch vk kd).1 =
      (CAXPostKeyboardEvent Q t a ch vk kd).1 := h

/-- Witness for claim C7: two concrete runs on the test oracle from different
platform states in which the oracle returns the same status, and the wrapper
accordingly returns the same status. -/
theorem CAXPostKeyboardEvent_deterministic_witness :
    (testPlatform.post 0 (some 1) 97 4 true).1 =
      (testPlatform.post 5 (some 1) 97 4 true).1 ∧
    (CAXPostKeyboardEvent testPlatform 0 (some 1) 97 4 true).1 =
      (CAXPostKeyboardEvent testPlatform 5 (some 1) 97 4 true).1 :=
  ⟨by decide,
   CAXPostKeyboardEvent_deterministic testPlatform testPlatform 0 5 (some 1)
     97 4 true (by decide)⟩

/-- Claim C8: the character code and virtual key code are exactly 16 bits
wide: every natural number below 65536 is a value of the code type, every
value of the code type is below 65536, and every such value is forwarded to
the platform without any range check. -/
theorem CAXKeyboardEvent_codes_sixteen_bits :
    (∀ n : Nat, n < 65536 → ∃ ch : CGCharCode, ch.val = n) ∧
    (∀ ch : CGCharCode, ch.val < 65536) ∧
    (∀ vk : CGKeyCode, vk.val < 65536) ∧
    (∀ (α : Type) (P : Platform α) (s : α) (a : AXUIElementRef)
        (ch : CGCharCode) (vk : CGKeyCode) (kd : Bool),
      (CAXPostKeyboardEvent P s a ch vk kd).2.2 =
        [PlatformOp.post a ch vk kd]) :=
  ⟨fun n h => ⟨⟨n, h⟩, rfl⟩, fun ch => ch.isLt, fun vk => vk.isLt,
   fun _ _ _ _ _ _ _ => rfl⟩

/-- Witness for claim C8: the boundary value 65535 is below 65536, is a value
of the character-code type, and a concrete invocation at that value is
forwarded exactly. -/
theorem CAXKeyboardEvent_codes_sixteen_bits_witness :
    (65535 < 65536 ∧ ∃ ch : CGCharCode, ch.val = 65535) ∧
    (CAXPostKeyboardEvent testPlatform 0 (some 1) 65535 65535 false).2.2 =
      [PlatformOp.post (some 1) 65535 65535 false] :=
  ⟨⟨by decide, CAXKeyboardEvent_codes_sixteen_bits.1 65535 (by decide)⟩,
   CAXKeyboardEvent_codes_sixteen_bits.2.2.2 Nat testPlatform 0 (some 1)
     65535 65535 false⟩

/-- Claim C9: the wrapper performs no null or validity check on the handle:
every handle value, the NULL handle included, is forwarded to the platform
unchanged and the returned status is exactly the platform's, so any rejection
comes solely from the platform. -/
theorem CAXPostKeyboardEvent_null_no_guard (P : Platform σ) (s : σ)
    (ch : CGCharCode) (vk : CGKeyCode) (kd : Bool) :
    (∀ a : AXUIElementRef,
      (CAXPostKeyboardEvent P s a ch vk kd).2.2 =
        [PlatformOp.post a ch vk kd] ∧
      (CAXPostKeyboardEvent P s a ch vk kd).1 = (P.post s a ch vk kd).1) ∧
    (CAXPostKeyboardEvent P s none ch vk kd).2.2 =
      [PlatformOp.post none ch vk kd] ∧
    (CAXPostKeyboardEvent P s none ch vk kd).1 = (P.post s none ch vk kd).1 :=
  ⟨fun _ => ⟨rfl, rfl⟩, rfl, rfl⟩

/-- Claim C10: the wrapper is a total function of its arguments and the
platform oracle: for every input it returns, and its whole result is exactly
the status and state of the single platform call together with the one-entry
trace, with no loop, recursion, or early exit of its own. -/
theorem CAXPostKeyboardEvent_total (P : Platform σ) (s : σ)
    (a : AXUIElementRef) (ch : CGCharCode) (vk : CGKeyCode) (kd : Bool) :
    CAXPostKeyboardEvent P s a ch vk kd =
      ((P.post s a ch vk kd).1, (P.post s a ch vk kd).2,
        [PlatformOp.post a ch vk kd]) := rfl
